import Mathlib

/-!
Verification of the configuration-loading module of the huggingface-env
repository (`src/project/config/settings.py`).

The Python module is embedded shallowly:

* the process is modelled by a `World` carrying the user's home directory,
  the process environment table (an association list, most recent binding
  first, so that a write shadows older bindings exactly as an overwrite
  does), and the set of directories that exist on the filesystem;
* paths are strings joined with "/"; `FsPath.mkdir(parents=True,
  exist_ok=True)` first creates the missing proper ancestors of the path
  (the component-wise joins of its split) and then the path itself;
* Python's builtin `int()` on environment text is modelled by `parsePyInt`
  (strip surrounding whitespace, optional sign, a non-empty run of digits);
  a failed parse is a `ValueError`, modelled by `PyError.valueError`;
* each dataclass constructor becomes a function from its explicitly
  supplied arguments (`none` = argument not supplied, so the default
  factory runs) and the relevant part of the world to the record and the
  updated world; `Settings.__init__` evaluates its default factories in
  field order and then runs `__post_init__`, and a `ValueError` raised
  midway leaves the side effects already performed in place, so
  `makeSettings` returns `Except PyError Settings × World` with the world
  component meaningful in the error case as well;
* CPython object identity is modelled by an allocation counter: every
  construction of a `Settings` object wraps it in a `SettingsObj` stamped
  with a fresh `oid` drawn from `ProcState.nextOid`.  Two references are
  identity-equal exactly when their `oid`s agree.
* the module-level global `_settings` is the `slot` of `ProcState`;
  `get_settings` and `load_settings_from_env` are the provider operations.
-/

abbrev FsPath := String

/-- The process environment table, most recent binding first. -/
def lookupEnv : List (String × String) → String → Option String
  | [], _ => none
  | (k, v) :: rest, key => if k = key then some v else lookupEnv rest key

/-- World state: home directory, environment table, set of existing
directories. -/
structure World where
  home : FsPath
  env : List (String × String)
  fs : List FsPath
  deriving DecidableEq, Inhabited

def getenv (w : World) (key : String) : Option String :=
  lookupEnv w.env key

/-- Embeds `os.getenv(key, d)`. -/
def getenvD (w : World) (key d : String) : String :=
  (getenv w key).getD d

/-- Embeds `os.environ[key] = v`. -/
def setenvW (w : World) (key v : String) : World :=
  { w with env := (key, v) :: w.env }

/-- Embeds `str.lower()`: lower-case each character.  (Defined by structural
recursion over the character list so that it evaluates inside the
kernel.) -/
def lowerString (s : String) : String :=
  String.mk (s.toList.map Char.toLower)

/-- Split a character list on a separator character, keeping empty
groups, as `str.split(sep)` does. -/
def splitOnChar (sep : Char) : List Char → List (List Char)
  | [] => [[]]
  | c :: rest =>
    match splitOnChar sep rest with
    | [] => [[c]]
    | g :: gs => if c = sep then [] :: g :: gs else (c :: g) :: gs

/-- Embeds `str.strip()`: drop surrounding whitespace. -/
def stripWS (cs : List Char) : List Char :=
  ((cs.dropWhile Char.isWhitespace).reverse.dropWhile Char.isWhitespace).reverse

/-- The `/` operator of `pathlib`. -/
def pathJoin (a b : FsPath) : FsPath := a ++ "/" ++ b

/-- The fixed default cache location `home / ".cache" / "huggingface"`. -/
def defaultHFCache (home : FsPath) : FsPath :=
  pathJoin (pathJoin home ".cache") "huggingface"

/-- The proper ancestors of a path, shortest first: the joins of the
proper non-empty prefixes of its component list. -/
def properAncestors (p : FsPath) : List FsPath :=
  let comps := (splitOnChar '/' p.toList).map (fun cs => String.mk cs)
  (List.range (comps.length - 1)).map
    (fun i => String.intercalate "/" (comps.take (i + 1)))

/-- Embeds `p.mkdir(parents=True, exist_ok=True)`: create the missing proper
ancestors of `p`, then `p` itself; directories that already exist are
left alone. -/
def mkdirParents (fs : List FsPath) (p : FsPath) : List FsPath :=
  let fs1 := (properAncestors p).foldl
    (fun acc q => if q ∈ acc then acc else q :: acc) fs
  if p ∈ fs1 then fs1 else p :: fs1

/-- The directory named by `p` exists in world `w`. -/
def dirExists (w : World) (p : FsPath) : Prop := p ∈ w.fs

instance (w : World) (p : FsPath) : Decidable (dirExists w p) := by
  unfold dirExists; infer_instance

/-- Python's builtin `int()` applied to environment text: surrounding
whitespace stripped, an optional sign, then a non-empty run of decimal
digits.  (The digit-grouping underscores Python also accepts play no role
here and are omitted.) -/
def parsePyInt (s : String) : Option Int :=
  let cs := stripWS s.toList
  let signed : Int × List Char :=
    match cs with
    | '-' :: r => (-1, r)
    | '+' :: r => (1, r)
    | r => (1, r)
  if signed.2 ≠ [] ∧ signed.2.all Char.isDigit then
    some (signed.1 * (signed.2.foldl (fun acc c => acc * 10 + (c.toNat - 48)) 0 : Nat))
  else
    none

/-- The only error the module can raise besides filesystem errors:
`ValueError` from `int()` on non-numeric text. -/
inductive PyError where
  | valueError
  deriving DecidableEq, Inhabited

/-! ## The three sub-configuration records -/

/-- The `ModelConfig` record. -/
structure ModelConfig where
  default_model : String
  cache_dir : Option FsPath
  device : String
  max_length : Int
  batch_size : Int
  precision : String
  deriving DecidableEq, Inhabited

/-- Constructor `ModelConfig(cache_dir=...)`: defaults for the unsupplied fields, then
`__post_init__`, which only assigns the default cache path when
`cache_dir` is `None` — it performs no filesystem operation. -/
def mkModelConfig (home : FsPath) (cacheDirArg : Option FsPath) : ModelConfig :=
  { default_model := "meta-llama/Llama-2-7b-hf"
    cache_dir :=
      match cacheDirArg with
      | none => some (defaultHFCache home)
      | some p => some p
    device := "mps"
    max_length := 512
    batch_size := 8
    precision := "float16" }

/-- The `ModelConfig` construction as a world transition: it reads the home
directory and leaves the filesystem and environment untouched. -/
def mkModelConfigW (cacheDirArg : Option FsPath) (w : World) : ModelConfig × World :=
  (mkModelConfig w.home cacheDirArg, w)

/-- The `TrainingConfig` record.  The float-valued hyperparameters are carried as
exact rationals. -/
structure TrainingConfig where
  learning_rate : Rat
  num_epochs : Int
  warmup_steps : Int
  weight_decay : Rat
  logging_steps : Int
  save_steps : Int
  eval_steps : Int
  output_dir : FsPath
  deriving DecidableEq, Inhabited

/-- Constructor `TrainingConfig(output_dir=...)`: defaults, then `__post_init__`,
which creates `output_dir` (parents included) if absent. -/
def mkTrainingConfig (outputDirArg : Option FsPath) (fs : List FsPath) :
    TrainingConfig × List FsPath :=
  let od := outputDirArg.getD "./outputs"
  ({ learning_rate := 1 / 50000
     num_epochs := 3
     warmup_steps := 500
     weight_decay := 1 / 100
     logging_steps := 100
     save_steps := 1000
     eval_steps := 500
     output_dir := od },
   mkdirParents fs od)

/-- The `TrainingConfig` construction as a world transition. -/
def mkTrainingConfigW (outputDirArg : Option FsPath) (w : World) :
    TrainingConfig × World :=
  let r := mkTrainingConfig outputDirArg w.fs
  (r.1, { w with fs := r.2 })

/-- The `DataConfig` record. -/
structure DataConfig where
  data_dir : FsPath
  dataset_name : Option String
  train_split : String
  validation_split : String
  test_split : String
  max_samples : Option Int
  deriving DecidableEq, Inhabited

/-- Constructor `DataConfig(data_dir=...)`: defaults, then `__post_init__`, which
creates `data_dir` (parents included) if absent. -/
def mkDataConfig (dataDirArg : Option FsPath) (fs : List FsPath) :
    DataConfig × List FsPath :=
  let dd := dataDirArg.getD "./data"
  ({ data_dir := dd
     dataset_name := none
     train_split := "train"
     validation_split := "validation"
     test_split := "test"
     max_samples := none },
   mkdirParents fs dd)

/-- The `DataConfig` construction as a world transition. -/
def mkDataConfigW (dataDirArg : Option FsPath) (w : World) :
    DataConfig × World :=
  let r := mkDataConfig dataDirArg w.fs
  (r.1, { w with fs := r.2 })

/-! ## The top-level `Settings` record -/

/-- The `Settings` record (the spec's ApplicationSettings). -/
structure Settings where
  env : String
  debug : Bool
  log_level : String
  hf_token : Option String
  hf_home : FsPath
  model : ModelConfig
  training : TrainingConfig
  data : DataConfig
  api_host : String
  api_port : Int
  num_workers : Int
  deriving DecidableEq, Inhabited

/-- Python truthiness of the optional token: `None` and `""` are falsy. -/
def tokenTruthy : Option String → Bool
  | none => false
  | some t => t ≠ ""

/-- The `hf_token` field's value: the explicitly supplied argument when
there is one (`tokArg = some t`), else the default factory
`os.getenv("HF_TOKEN")`. -/
def resolvedToken (tokArg : Option (Option String)) (w : World) : Option String :=
  match tokArg with
  | none => getenv w "HF_TOKEN"
  | some t => t

/-- Constructor `Settings(...)`.  Here `tokArg = none` means `hf_token` was not supplied,
so its default factory reads `HF_TOKEN`; `tokArg = some t` means it was
supplied explicitly as `t`.  The default factories run in field order
(`env`, `debug`, `log_level`, `hf_token`, `hf_home`, `model`, `training`,
`data`, `api_host`, `api_port`, `num_workers`), so the sub-record
directory creations happen before the two `int()` parses; a parse failure
raises `ValueError` with those filesystem effects already in place and
`__post_init__` never reached.  `__post_init__` then, in order,
(a) normalizes `hf_home` and creates it on disk, (b) writes `HF_HOME`,
(c) writes `HF_TOKEN` when the token is truthy. -/
def makeSettings (tokArg : Option (Option String)) (w : World) :
    Except PyError Settings × World :=
  let envName := getenvD w "ENVIRONMENT" "development"
  let debugVal := lowerString (getenvD w "DEBUG" "false") == "true"
  let logLevel := getenvD w "LOG_LEVEL" "INFO"
  let hfTok : Option String := resolvedToken tokArg w
  let hfHome := getenvD w "HF_HOME" (defaultHFCache w.home)
  let modelCfg := mkModelConfig w.home none
  let training := mkTrainingConfig none w.fs
  let dataCfg := mkDataConfig none training.2
  let w1 : World := { w with fs := dataCfg.2 }
  let apiHost := getenvD w "API_HOST" "0.0.0.0"
  match parsePyInt (getenvD w "API_PORT" "8000") with
  | none => (Except.error PyError.valueError, w1)
  | some apiPort =>
    match parsePyInt (getenvD w "NUM_WORKERS" "4") with
    | none => (Except.error PyError.valueError, w1)
    | some numWorkers =>
      let w2 := { w1 with fs := mkdirParents w1.fs hfHome }
      let w3 := setenvW w2 "HF_HOME" hfHome
      let w4 := if tokenTruthy hfTok then setenvW w3 "HF_TOKEN" (hfTok.getD "") else w3
      (Except.ok
        { env := envName
          debug := debugVal
          log_level := logLevel
          hf_token := hfTok
          hf_home := hfHome
          model := modelCfg
          training := training.1
          data := dataCfg.1
          api_host := apiHost
          api_port := apiPort
          num_workers := numWorkers },
       w4)

/-! ## The provider (`_settings`, `get_settings`, `load_settings_from_env`) -/

/-- A constructed `Settings` object together with its allocation
identity. -/
structure SettingsObj where
  oid : Nat
  val : Settings
  deriving DecidableEq, Inhabited

/-- Process state for the provider: the world, the allocation counter,
and the module-level `_settings` slot (`none` = UNINITIALIZED). -/
structure ProcState where
  world : World
  nextOid : Nat
  slot : Option SettingsObj
  deriving DecidableEq, Inhabited

/-- Evaluate `Settings()` (no explicit overrides) and stamp the result
with a fresh identity.  On failure the slot is untouched but the world
keeps the side effects performed before the failure. -/
def buildSettings (st : ProcState) : Except PyError SettingsObj × ProcState :=
  match makeSettings none st.world with
  | (Except.error e, w2) => (Except.error e, { st with world := w2 })
  | (Except.ok s, w2) =>
      (Except.ok { oid := st.nextOid, val := s },
       { st with world := w2, nextOid := st.nextOid + 1 })

/-- Embeds `get_settings(reload=...)`: `if _settings is None or reload:
_settings = Settings()`; `return _settings`.  An exception from
`Settings()` propagates before the slot assignment. -/
def get_settings (reload : Bool) (st : ProcState) :
    Except PyError SettingsObj × ProcState :=
  match st.slot, reload with
  | some s, false => (Except.ok s, st)
  | _, _ =>
    match buildSettings st with
    | (Except.error e, st2) => (Except.error e, st2)
    | (Except.ok obj, st2) => (Except.ok obj, { st2 with slot := some obj })

/-- Embeds `load_settings_from_env()`: `return get_settings(reload=True)`. -/
def load_settings_from_env (st : ProcState) :
    Except PyError SettingsObj × ProcState :=
  get_settings true st

/-! ## Helper lemmas -/

theorem mem_foldl_ins (l : List FsPath) (fs : List FsPath) (q : FsPath)
    (h : q ∈ fs) :
    q ∈ l.foldl (fun acc x => if x ∈ acc then acc else x :: acc) fs := by
  induction l generalizing fs with
  | nil => exact h
  | cons a t ih =>
    simp only [List.foldl_cons]
    apply ih
    by_cases ha : a ∈ fs
    · simpa [ha] using h
    · simp only [ha, if_false]
      exact List.mem_cons_of_mem a h

theorem mem_mkdirParents_self (fs : List FsPath) (p : FsPath) :
    p ∈ mkdirParents fs p := by
  unfold mkdirParents
  by_cases hp :
      p ∈ (properAncestors p).foldl (fun acc q => if q ∈ acc then acc else q :: acc) fs
  · simp [hp]
  · simp [hp]

theorem mem_mkdirParents_of_mem (fs : List FsPath) (p q : FsPath)
    (h : q ∈ fs) : q ∈ mkdirParents fs p := by
  unfold mkdirParents
  have h1 := mem_foldl_ins (properAncestors p) fs q h
  by_cases hp :
      p ∈ (properAncestors p).foldl (fun acc q => if q ∈ acc then acc else q :: acc) fs
  · simpa [hp] using h1
  · simp only [hp, if_false]
    exact List.mem_cons_of_mem p h1

theorem lookupEnv_cons (k v key : String) (e : List (String × String)) :
    lookupEnv ((k, v) :: e) key = if k = key then some v else lookupEnv e key := rfl

/-- Inversion of a successful `Settings()` construction: every field of the
result and of the final world, in terms of the starting world. -/
theorem makeSettings_ok_inv (tokArg : Option (Option String)) (w : World)
    (s : Settings) (w2 : World)
    (h : makeSettings tokArg w = (Except.ok s, w2)) :
    s.env = getenvD w "ENVIRONMENT" "development" ∧
    s.debug = (lowerString (getenvD w "DEBUG" "false") == "true") ∧
    s.log_level = getenvD w "LOG_LEVEL" "INFO" ∧
    s.hf_token = resolvedToken tokArg w ∧
    s.hf_home = getenvD w "HF_HOME" (defaultHFCache w.home) ∧
    s.model = mkModelConfig w.home none ∧
    s.training = (mkTrainingConfig none w.fs).1 ∧
    s.data = (mkDataConfig none (mkTrainingConfig none w.fs).2).1 ∧
    s.api_host = getenvD w "API_HOST" "0.0.0.0" ∧
    parsePyInt (getenvD w "API_PORT" "8000") = some s.api_port ∧
    parsePyInt (getenvD w "NUM_WORKERS" "4") = some s.num_workers ∧
    w2.home = w.home ∧
    w2.fs = mkdirParents (mkDataConfig none (mkTrainingConfig none w.fs).2).2 s.hf_home ∧
    w2.env = (if tokenTruthy s.hf_token
      then ("HF_TOKEN", s.hf_token.getD "") :: ("HF_HOME", s.hf_home) :: w.env
      else ("HF_HOME", s.hf_home) :: w.env) := by
  simp only [makeSettings] at h
  split at h
  · simp at h
  · split at h
    · simp at h
    · rw [Prod.mk.injEq, Except.ok.injEq] at h
      obtain ⟨h1, h2⟩ := h
      subst h1
      subst h2
      refine ⟨rfl, rfl, rfl, rfl, rfl, rfl, rfl, rfl, rfl, by assumption, by assumption,
        ?_, ?_, ?_⟩
      · by_cases hc : tokenTruthy (resolvedToken tokArg w) = true <;>
          simp [hc, setenvW]
      · by_cases hc : tokenTruthy (resolvedToken tokArg w) = true <;>
          simp [hc, setenvW]
      · by_cases hc : tokenTruthy (resolvedToken tokArg w) = true <;>
          simp [hc, setenvW]

/-- The `buildSettings` step never touches the slot (the assignment to `_settings`
happens in `get_settings`, after `Settings()` has returned). -/
theorem buildSettings_slot (st : ProcState) : (buildSettings st).2.slot = st.slot := by
  unfold buildSettings
  split <;> rfl

/-- Inversion of a successful `buildSettings`: the object carries the
fresh identity and the counter advances. -/
theorem buildSettings_ok_inv (st : ProcState) (obj : SettingsObj) (st2 : ProcState)
    (h : buildSettings st = (Except.ok obj, st2)) :
    obj.oid = st.nextOid ∧ st2.nextOid = st.nextOid + 1 ∧ st2.slot = st.slot := by
  unfold buildSettings at h
  split at h
  · simp at h
  · rw [Prod.mk.injEq, Except.ok.injEq] at h
    obtain ⟨h1, h2⟩ := h
    subst h1
    subst h2
    exact ⟨rfl, rfl, rfl⟩

/-! ## Concrete worlds used by the witnesses -/

/-- A world with an empty environment and an empty filesystem. -/
def demoWorld : World := { home := "/home/user", env := [], fs := [] }

/-- The UNINITIALIZED provider state over `demoWorld`. -/
def demoProc : ProcState := { world := demoWorld, nextOid := 0, slot := none }

/-- Like `demoWorld` but with `API_PORT` set to non-numeric text. -/
def badPortWorld : World :=
  { home := "/home/user", env := [("API_PORT", "not-a-number")], fs := [] }

/-- The UNINITIALIZED provider state over `badPortWorld`. -/
def badPortProc : ProcState := { world := badPortWorld, nextOid := 0, slot := none }

/-- Like `demoWorld` but with `DEBUG` set to `TRUE`. -/
def debugWorld : World :=
  { home := "/home/user", env := [("DEBUG", "TRUE")], fs := [] }

/-- Like `demoWorld` but with `HF_TOKEN` set to `abc123`. -/
def tokenWorld : World :=
  { home := "/home/user", env := [("HF_TOKEN", "abc123")], fs := [] }

/-- The settings produced by a successful `Settings()` call (used to name
the output of a concrete construction inside closed statements). -/
def settingsOfT (tokArg : Option (Option String)) (w : World) : Settings :=
  match (makeSettings tokArg w).1 with
  | Except.ok s => s
  | Except.error _ => default

/-- The world after a `Settings()` call. -/
def worldAfterT (tokArg : Option (Option String)) (w : World) : World :=
  (makeSettings tokArg w).2

/-- The object returned by a successful `get_settings` call. -/
def objOf (reload : Bool) (st : ProcState) : SettingsObj :=
  match (get_settings reload st).1 with
  | Except.ok o => o
  | Except.error _ => default

/-- The provider state after a `get_settings` call. -/
def procAfter (reload : Bool) (st : ProcState) : ProcState :=
  (get_settings reload st).2

/-! ## Claim theorems -/

/-- C1 counterexample: in a world with an empty filesystem, constructing
`ModelConfig` without a `cache_dir` override sets `cache_dir` to the
default cache path but creates no directory, so the directory named by
`cache_dir` does not exist immediately after construction returns —
refuting the claim for ModelSettings. -/
theorem modelconfig_cache_dir_not_created :
    (mkModelConfigW none demoWorld).1.cache_dir
      = some "/home/user/.cache/huggingface" ∧
    ¬ dirExists (mkModelConfigW none demoWorld).2 "/home/user/.cache/huggingface" := by
  exact ⟨rfl, by decide⟩

/-- C1 (amended): for every construction of `TrainingConfig` or
`DataConfig` without an explicit path override, the directory named by
`output_dir` / `data_dir` exists immediately after construction returns
(created recursively if absent); for `ModelConfig` without an override,
`cache_dir` is assigned the default cache path but the filesystem is left
untouched, so no directory is created. -/
theorem subconfig_dirs_after_construction (w : World) :
    dirExists (mkTrainingConfigW none w).2 (mkTrainingConfigW none w).1.output_dir ∧
    dirExists (mkDataConfigW none w).2 (mkDataConfigW none w).1.data_dir ∧
    (mkModelConfigW none w).1.cache_dir = some (defaultHFCache w.home) ∧
    (mkModelConfigW none w).2 = w := by
  refine ⟨?_, ?_, rfl, rfl⟩
  · show (("./outputs" : FsPath) ∈ mkdirParents w.fs "./outputs")
    exact mem_mkdirParents_self w.fs "./outputs"
  · show (("./data" : FsPath) ∈ mkdirParents w.fs "./data")
    exact mem_mkdirParents_self w.fs "./data"

/-- C4: if the environment holds a non-integer `API_PORT`, or a
non-integer `NUM_WORKERS`, `Settings()` construction fails with a
`ValueError` propagated to the caller instead of falling back to the
default port or worker count. -/
theorem nonint_port_or_workers_fails (tokArg : Option (Option String)) (w : World)
    (hbad : (∃ v, getenv w "API_PORT" = some v ∧ parsePyInt v = none) ∨
            (∃ v, getenv w "NUM_WORKERS" = some v ∧ parsePyInt v = none)) :
    (makeSettings tokArg w).1 = Except.error PyError.valueError := by
  simp only [makeSettings]
  rcases hbad with ⟨v, hv, hpv⟩ | ⟨v, hv, hpv⟩
  · have he : getenvD w "API_PORT" "8000" = v := by simp [getenvD, hv]
    rw [he, hpv]
  · have he : getenvD w "NUM_WORKERS" "4" = v := by simp [getenvD, hv]
    cases hport : parsePyInt (getenvD w "API_PORT" "8000") with
    | none => rfl
    | some port => rw [he, hpv]

/-- C4 witness: `API_PORT = "not-a-number"` makes construction fail. -/
theorem nonint_port_or_workers_fails_witness :
    (getenv badPortWorld "API_PORT" = some "not-a-number" ∧
     parsePyInt "not-a-number" = none) ∧
    (makeSettings none badPortWorld).1 = Except.error PyError.valueError :=
  ⟨⟨rfl, rfl⟩,
   nonint_port_or_workers_fails none badPortWorld
     (Or.inl ⟨"not-a-number", rfl, rfl⟩)⟩

/-- C9: `load_settings_from_env()` is the same operation as
`get_settings(reload=True)`: from every provider state it performs the
same construction, the same slot update, and returns the same result. -/
theorem load_settings_from_env_equiv (st : ProcState) :
    load_settings_from_env st = get_settings true st := rfl

/-- C2: once a call to `get_settings` without reload has succeeded, the
slot is INITIALIZED with exactly the returned object, and a further call
without reload returns that very object (same allocation identity) and
leaves the state untouched — so by iterating the second conjunct, every
call after the first returns the instance the first call constructed and
stored.  In particular a first call from the UNINITIALIZED state
(`st.slot = none`) transitions the slot to INITIALIZED. -/
theorem get_settings_identity (st : ProcState) (s : SettingsObj) (st2 : ProcState)
    (h : get_settings false st = (Except.ok s, st2)) :
    st2.slot = some s ∧ get_settings false st2 = (Except.ok s, st2) := by
  unfold get_settings at h
  cases hs : st.slot with
  | some a =>
    rw [hs] at h
    simp only [Prod.mk.injEq, Except.ok.injEq] at h
    obtain ⟨h1, h2⟩ := h
    subst h1
    subst h2
    exact ⟨hs, by unfold get_settings; rw [hs]⟩
  | none =>
    rw [hs] at h
    rcases hb : buildSettings st with ⟨e | o, st3⟩ <;> rw [hb] at h
    · simp at h
    · simp only [Prod.mk.injEq, Except.ok.injEq] at h
      obtain ⟨h1, h2⟩ := h
      subst h1
      subst h2
      exact ⟨rfl, by unfold get_settings; rfl⟩

/-- C2 witness: from the UNINITIALIZED demo state, the first call fills
the slot and the second call returns the identical object. -/
theorem get_settings_identity_witness :
    get_settings false demoProc
      = (Except.ok (objOf false demoProc), procAfter false demoProc) ∧
    ((procAfter false demoProc).slot = some (objOf false demoProc) ∧
     get_settings false (procAfter false demoProc)
       = (Except.ok (objOf false demoProc), procAfter false demoProc)) :=
  ⟨rfl, get_settings_identity demoProc (objOf false demoProc)
    (procAfter false demoProc) rfl⟩

/-- C5: a `get_settings` call whose `Settings()` construction fails
leaves the slot exactly as it was — still `none` (UNINITIALIZED) if it
was never filled, or still the previous good instance on a failed reload
— even though the filesystem side effects performed before the failure
persist in the world. -/
theorem get_settings_error_preserves_slot (reload : Bool) (st : ProcState)
    (e : PyError) (st2 : ProcState)
    (h : get_settings reload st = (Except.error e, st2)) :
    st2.slot = st.slot := by
  unfold get_settings at h
  cases hs : st.slot with
  | some a =>
    cases reload with
    | false => rw [hs] at h; simp at h
    | true =>
      rw [hs] at h
      rcases hb : buildSettings st with ⟨e2 | o, st3⟩ <;> rw [hb] at h
      · simp only [Prod.mk.injEq, Except.error.injEq] at h
        obtain ⟨h1, h2⟩ := h
        subst h2
        have hsl := buildSettings_slot st
        rw [hb] at hsl
        simp only at hsl
        rw [hsl]
        exact hs
      · simp at h
  | none =>
    rw [hs] at h
    rcases hb : buildSettings st with ⟨e2 | o, st3⟩ <;> rw [hb] at h
    · simp only [Prod.mk.injEq, Except.error.injEq] at h
      obtain ⟨h1, h2⟩ := h
      subst h2
      have hsl := buildSettings_slot st
      rw [hb] at hsl
      simp only at hsl
      rw [hsl]
      exact hs
    · simp at h

/-- C5 witness: with `API_PORT` non-numeric, the first call fails and the
slot is still UNINITIALIZED afterwards. -/
theorem get_settings_error_preserves_slot_witness :
    get_settings false badPortProc
      = (Except.error PyError.valueError, procAfter false badPortProc) ∧
    (procAfter false badPortProc).slot = badPortProc.slot :=
  ⟨rfl, get_settings_error_preserves_slot false badPortProc PyError.valueError
    (procAfter false badPortProc) rfl⟩

/-- Allocation invariant of the provider: from a state whose slot only
holds an already-allocated object, a successful `get_settings` call
returns an object allocated before the resulting counter, never
decreases the counter, and re-establishes the slot condition.  Along any
call sequence this keeps every previously returned `oid` strictly below
the current counter. -/
theorem get_settings_oid_invariant (reload : Bool) (st : ProcState)
    (p : SettingsObj) (st2 : ProcState)
    (hwf : ∀ q : SettingsObj, st.slot = some q → q.oid < st.nextOid)
    (h : get_settings reload st = (Except.ok p, st2)) :
    p.oid < st2.nextOid ∧ st.nextOid ≤ st2.nextOid ∧
    (∀ q : SettingsObj, st2.slot = some q → q.oid < st2.nextOid) := by
  unfold get_settings at h
  cases hs : st.slot with
  | some a =>
    cases reload with
    | false =>
      rw [hs] at h
      simp only [Prod.mk.injEq, Except.ok.injEq] at h
      obtain ⟨h1, h2⟩ := h
      subst h1
      subst h2
      exact ⟨hwf a hs, Nat.le_refl _, hwf⟩
    | true =>
      rw [hs] at h
      rcases hb : buildSettings st with ⟨e | o, st3⟩ <;> rw [hb] at h
      · simp at h
      · simp only [Prod.mk.injEq, Except.ok.injEq] at h
        obtain ⟨h1, h2⟩ := h
        subst h1
        subst h2
        obtain ⟨ho, hn, -⟩ := buildSettings_ok_inv st o st3 hb
        refine ⟨by simp [hn, ho], by simp [hn], ?_⟩
        intro q hq
        simp only [Option.some.injEq] at hq
        subst hq
        simp [hn, ho]
  | none =>
    rw [hs] at h
    rcases hb : buildSettings st with ⟨e | o, st3⟩ <;> rw [hb] at h
    · simp at h
    · simp only [Prod.mk.injEq, Except.ok.injEq] at h
      obtain ⟨h1, h2⟩ := h
      subst h1
      subst h2
      obtain ⟨ho, hn, -⟩ := buildSettings_ok_inv st o st3 hb
      refine ⟨by simp [hn, ho], by simp [hn], ?_⟩
      intro q hq
      simp only [Option.some.injEq] at hq
      subst hq
      simp [hn, ho]

/-- C7: a successful `get_settings(reload=True)` call builds a fresh
instance: its identity is the current allocation counter, the counter
advances, the returned object replaces whatever the slot held, and its
identity differs from that of every object allocated before the call.
The final conjunct (the allocation invariant) shows that every object
returned by any earlier call — cached or built — was indeed allocated
before the call, so the reloaded instance is identity-distinct from all
of them. -/
theorem get_settings_reload_fresh (st : ProcState) (obj : SettingsObj)
    (st2 : ProcState)
    (h : get_settings true st = (Except.ok obj, st2)) :
    obj.oid = st.nextOid ∧ st2.nextOid = st.nextOid + 1 ∧
    st2.slot = some obj ∧
    (∀ p : SettingsObj, p.oid < st.nextOid → p.oid ≠ obj.oid) ∧
    (∀ (r : Bool) (st0 : ProcState) (p : SettingsObj) (st1 : ProcState),
      (∀ q : SettingsObj, st0.slot = some q → q.oid < st0.nextOid) →
      get_settings r st0 = (Except.ok p, st1) →
      p.oid < st1.nextOid ∧ st0.nextOid ≤ st1.nextOid ∧
      (∀ q : SettingsObj, st1.slot = some q → q.oid < st1.nextOid)) := by
  have hmain : obj.oid = st.nextOid ∧ st2.nextOid = st.nextOid + 1 ∧
      st2.slot = some obj := by
    unfold get_settings at h
    cases hs : st.slot with
    | some a =>
      rw [hs] at h
      rcases hb : buildSettings st with ⟨e | o, st3⟩ <;> rw [hb] at h
      · simp at h
      · simp only [Prod.mk.injEq, Except.ok.injEq] at h
        obtain ⟨h1, h2⟩ := h
        subst h1
        subst h2
        obtain ⟨ho, hn, -⟩ := buildSettings_ok_inv st o st3 hb
        exact ⟨ho, by simp [hn], rfl⟩
    | none =>
      rw [hs] at h
      rcases hb : buildSettings st with ⟨e | o, st3⟩ <;> rw [hb] at h
      · simp at h
      · simp only [Prod.mk.injEq, Except.ok.injEq] at h
        obtain ⟨h1, h2⟩ := h
        subst h1
        subst h2
        obtain ⟨ho, hn, -⟩ := buildSettings_ok_inv st o st3 hb
        exact ⟨ho, by simp [hn], rfl⟩
  obtain ⟨ho, hn, hsl⟩ := hmain
  refine ⟨ho, hn, hsl, ?_, ?_⟩
  · intro p hp
    rw [ho]
    exact Nat.ne_of_lt hp
  · intro r st0 p st1 hwf h0
    exact get_settings_oid_invariant r st0 p st1 hwf h0

/-- C7 witness: a reload from the UNINITIALIZED demo state. -/
theorem get_settings_reload_fresh_witness :
    get_settings true demoProc
      = (Except.ok (objOf true demoProc), procAfter true demoProc) ∧
    ((objOf true demoProc).oid = demoProc.nextOid ∧
     (procAfter true demoProc).nextOid = demoProc.nextOid + 1 ∧
     (procAfter true demoProc).slot = some (objOf true demoProc) ∧
     (∀ p : SettingsObj, p.oid < demoProc.nextOid → p.oid ≠ (objOf true demoProc).oid) ∧
     (∀ (r : Bool) (st0 : ProcState) (p : SettingsObj) (st1 : ProcState),
       (∀ q : SettingsObj, st0.slot = some q → q.oid < st0.nextOid) →
       get_settings r st0 = (Except.ok p, st1) →
       p.oid < st1.nextOid ∧ st0.nextOid ≤ st1.nextOid ∧
       (∀ q : SettingsObj, st1.slot = some q → q.oid < st1.nextOid))) :=
  ⟨rfl, get_settings_reload_fresh demoProc (objOf true demoProc)
    (procAfter true demoProc) rfl⟩

/-- C3 counterexample: supplying the token explicitly as the empty string
(`Settings(hf_token="")`) resolves the token to `""`, yet construction
succeeds without writing `HF_TOKEN` into the environment table — the
truthiness guard `if self.hf_token:` skips the write, refuting the claim
that every supplied token is propagated. -/
theorem empty_token_supplied_cex :
    (makeSettings (some (some "")) demoWorld).1
      = Except.ok (settingsOfT (some (some "")) demoWorld) ∧
    (settingsOfT (some (some "")) demoWorld).hf_token = some "" ∧
    getenv (worldAfterT (some (some "")) demoWorld) "HF_TOKEN" = none :=
  ⟨rfl, rfl, rfl⟩

/-- C3 (amended): immediately after any successful construction of
`Settings`, the hub cache directory has been created, the environment
maps `HF_HOME` to the resolved `hf_home`, and — whenever a NON-EMPTY hub
token was supplied explicitly or discovered from the environment — the
environment maps `HF_TOKEN` to that resolved token.  (The writes happen
in the order: create `hf_home`, write `HF_HOME`, write `HF_TOKEN`; a
`None` or empty token skips the third step.) -/
theorem settings_env_writes (tokArg : Option (Option String)) (w : World)
    (s : Settings) (w2 : World)
    (h : makeSettings tokArg w = (Except.ok s, w2)) :
    dirExists w2 s.hf_home ∧
    getenv w2 "HF_HOME" = some s.hf_home ∧
    (∀ t : String, s.hf_token = some t → t ≠ "" →
      getenv w2 "HF_TOKEN" = some t) := by
  obtain ⟨-, -, -, -, -, -, -, -, -, -, -, -, hfs, henvw⟩ :=
    makeSettings_ok_inv tokArg w s w2 h
  refine ⟨?_, ?_, ?_⟩
  · unfold dirExists
    rw [hfs]
    exact mem_mkdirParents_self _ _
  · unfold getenv
    rw [henvw]
    by_cases hc : tokenTruthy s.hf_token = true
    · rw [if_pos hc, lookupEnv_cons, if_neg (by decide), lookupEnv_cons,
        if_pos rfl]
    · rw [if_neg hc, lookupEnv_cons, if_pos rfl]
  · intro t ht hne
    have hc : tokenTruthy s.hf_token = true := by
      rw [ht]
      simp [tokenTruthy, hne]
    unfold getenv
    rw [henvw, if_pos hc, lookupEnv_cons, if_pos rfl, ht]
    rfl

/-- C3 witness: `HF_TOKEN=abc123` in the environment before construction
yields all three conclusions at a concrete world. -/
theorem settings_env_writes_witness :
    makeSettings none tokenWorld
      = (Except.ok (settingsOfT none tokenWorld), worldAfterT none tokenWorld) ∧
    (dirExists (worldAfterT none tokenWorld) (settingsOfT none tokenWorld).hf_home ∧
     getenv (worldAfterT none tokenWorld) "HF_HOME"
       = some (settingsOfT none tokenWorld).hf_home ∧
     (∀ t : String, (settingsOfT none tokenWorld).hf_token = some t → t ≠ "" →
       getenv (worldAfterT none tokenWorld) "HF_TOKEN" = some t)) :=
  ⟨rfl, settings_env_writes none tokenWorld (settingsOfT none tokenWorld)
    (worldAfterT none tokenWorld) rfl⟩

/-- C6: the `debug` field of a successfully constructed `Settings` is
true exactly when the `DEBUG` environment variable is present and its
text lower-cases to "true"; any other value, or an unset `DEBUG`, yields
`debug = false`. -/
theorem debug_iff_env_true (w : World) (s : Settings) (w2 : World)
    (h : makeSettings none w = (Except.ok s, w2)) :
    (s.debug = true ↔ ∃ v, getenv w "DEBUG" = some v ∧ lowerString v = "true") := by
  obtain ⟨-, hdbg, -⟩ := makeSettings_ok_inv none w s w2 h
  rw [hdbg]
  cases hv : getenv w "DEBUG" with
  | none =>
    simp only [getenvD, hv, Option.getD_none]
    constructor
    · intro habs
      exact absurd habs (by decide)
    · rintro ⟨v, hv2, -⟩
      exact absurd hv2 (by simp)
  | some v =>
    simp [getenvD, hv, beq_iff_eq]

/-- C6 witness: `DEBUG=TRUE` yields `debug = true`. -/
theorem debug_iff_env_true_witness :
    makeSettings none debugWorld
      = (Except.ok (settingsOfT none debugWorld), worldAfterT none debugWorld) ∧
    ((settingsOfT none debugWorld).debug = true ↔
      ∃ v, getenv debugWorld "DEBUG" = some v ∧ lowerString v = "true") :=
  ⟨rfl, debug_iff_env_true debugWorld (settingsOfT none debugWorld)
    (worldAfterT none debugWorld) rfl⟩

/-- C8: when `HF_HOME` is unset in the environment, a successful
construction resolves `hf_home` to `{home}/.cache/huggingface` and that
directory exists on disk afterwards. -/
theorem hf_home_default_when_unset (w : World) (s : Settings) (w2 : World)
    (hno : getenv w "HF_HOME" = none)
    (h : makeSettings none w = (Except.ok s, w2)) :
    s.hf_home = pathJoin (pathJoin w.home ".cache") "huggingface" ∧
    dirExists w2 s.hf_home := by
  obtain ⟨-, -, -, -, hhome, -, -, -, -, -, -, -, hfs, -⟩ :=
    makeSettings_ok_inv none w s w2 h
  constructor
  · rw [hhome]
    simp [getenvD, hno, defaultHFCache]
  · unfold dirExists
    rw [hfs]
    exact mem_mkdirParents_self _ _

/-- C8 witness: the empty-environment world. -/
theorem hf_home_default_when_unset_witness :
    (getenv demoWorld "HF_HOME" = none ∧
     makeSettings none demoWorld
       = (Except.ok (settingsOfT none demoWorld), worldAfterT none demoWorld)) ∧
    ((settingsOfT none demoWorld).hf_home
       = pathJoin (pathJoin demoWorld.home ".cache") "huggingface" ∧
     dirExists (worldAfterT none demoWorld) (settingsOfT none demoWorld).hf_home) :=
  ⟨⟨rfl, rfl⟩, hf_home_default_when_unset demoWorld (settingsOfT none demoWorld)
    (worldAfterT none demoWorld) rfl rfl⟩

/-- C10: when the resolved hub token is the empty string (supplied
explicitly or read from an `HF_TOKEN` variable set to empty text),
construction leaves the `HF_TOKEN` entry of the environment table exactly
as it was, while `HF_HOME` is written unconditionally. -/
theorem empty_token_not_propagated (tokArg : Option (Option String)) (w : World)
    (s : Settings) (w2 : World)
    (h : makeSettings tokArg w = (Except.ok s, w2))
    (he : s.hf_token = some "") :
    getenv w2 "HF_TOKEN" = getenv w "HF_TOKEN" ∧
    getenv w2 "HF_HOME" = some s.hf_home := by
  obtain ⟨-, -, -, -, -, -, -, -, -, -, -, -, -, henvw⟩ :=
    makeSettings_ok_inv tokArg w s w2 h
  have hc : ¬ tokenTruthy s.hf_token = true := by
    rw [he]
    decide
  constructor
  · show lookupEnv w2.env "HF_TOKEN" = getenv w "HF_TOKEN"
    rw [henvw, if_neg hc, lookupEnv_cons, if_neg (by decide)]
    rfl
  · show lookupEnv w2.env "HF_HOME" = some s.hf_home
    rw [henvw, if_neg hc, lookupEnv_cons, if_pos rfl]

/-- C10 witness: an explicitly supplied empty token over an environment
that never had `HF_TOKEN`: the entry stays absent, `HF_HOME` is written. -/
theorem empty_token_not_propagated_witness :
    (makeSettings (some (some "")) demoWorld
       = (Except.ok (settingsOfT (some (some "")) demoWorld),
          worldAfterT (some (some "")) demoWorld) ∧
     (settingsOfT (some (some "")) demoWorld).hf_token = some "") ∧
    (getenv (worldAfterT (some (some "")) demoWorld) "HF_TOKEN"
       = getenv demoWorld "HF_TOKEN" ∧
     getenv (worldAfterT (some (some "")) demoWorld) "HF_HOME"
       = some (settingsOfT (some (some "")) demoWorld).hf_home) :=
  ⟨⟨rfl, rfl⟩, empty_token_not_propagated (some (some "")) demoWorld
    (settingsOfT (some (some "")) demoWorld)
    (worldAfterT (some (some "")) demoWorld) rfl rfl⟩
